import Mathlib

/-!
Verification of the domain-lookup resolution engine and batch dispatcher.

The embedding follows `main.go` of the repository:

* `lookupWithWhois` — the secondary (WHOIS) fallback resolution;
* `lookupDomain` — primary (RDAP) lookup with WHOIS fallback;
* `lookupDomainMCP` / `lookupDomainsMCP` — the tool-call handlers;
* `minWorkers` and the worker-pool sizing of the batch dispatcher.

External clients are modelled as functions from a domain string to the
reply the Go code observes: a pair of an optional record and an error
flag, mirroring Go's `(value, err)` return convention.  A Go runtime
panic (nil-pointer dereference) is modelled as the `none` outcome of an
`Option` result: a function returns `some s` exactly when the Go code
returns the string `s`, and `none` exactly when the Go code panics.
-/

namespace DomainLookup

/-- Status constant `StatusRegistered = "registered"` from main.go. -/
def StatusRegistered : String := "registered"

/-- Status constant `StatusAvailable = "available"` from main.go. -/
def StatusAvailable : String := "available"

/-- Status constant `StatusUnknown = "unknown"` from main.go. -/
def StatusUnknown : String := "unknown"

/-- Model of `*rdap.Response`: the only fact about the response body the
code inspects is whether `resp.Object` type-asserts to `*rdap.Domain`. -/
structure RDAPResponse where
  objectIsDomain : Bool
  deriving DecidableEq, Repr

/-- Model of the pair returned by `rdapClient.Do(req)`: an optional
response pointer (`none` = nil) and whether the error value is non-nil. -/
structure RDAPReply where
  resp : Option RDAPResponse
  err : Bool
  deriving DecidableEq, Repr

/-- The `WhoisResult` struct of main.go: an optional availability flag
(`IsAvailable *bool`) and the raw text. -/
structure WhoisResult where
  IsAvailable : Option Bool
  RawText : String
  deriving DecidableEq, Repr

/-- Model of the pair returned by `whoisClient.Query(ctx, domain)`: an
optional `*WhoisResult` (`none` = nil pointer) and whether the error
value is non-nil. -/
structure WhoisReply where
  result : Option WhoisResult
  err : Bool
  deriving DecidableEq, Repr

/-- An `RDAPClient` (interface of main.go) is modelled by the reply it
produces for each queried domain. -/
def RDAPClient : Type := String → RDAPReply

/-- A `WhoisProvider` (interface of main.go) is modelled by the reply it
produces for each queried domain. -/
def WhoisProvider : Type := String → WhoisReply

/-- Model of the record returned by the underlying go-whois library
client, as consumed by `WhoisClient.Query` in main.go. -/
structure GoWhoisRecord where
  IsAvailable : Option Bool
  RawText : String
  deriving DecidableEq, Repr

/-- The concrete `WhoisClient.Query` wrapper of main.go: on error it
returns `(nil, err)`, otherwise it builds a fresh non-nil `WhoisResult`
from the library record and returns it with a nil error.  In particular
it never returns a nil result together with a nil error. -/
def WhoisClientQuery (underlying : String → Except Unit GoWhoisRecord) : WhoisProvider :=
  fun domain =>
    match underlying domain with
    | Except.error _ => { result := none, err := true }
    | Except.ok r => { result := some { IsAvailable := r.IsAvailable, RawText := r.RawText }, err := false }

/-- The function `lookupWithWhois` of main.go.  On a query error it
returns `StatusUnknown`.  Otherwise the Go code immediately reads
`whoisResult.IsAvailable`; when the provider returned a nil result with
a nil error this dereferences a nil pointer and panics, modelled here by
`none`.  With a non-nil result the status is computed exactly as in the
source: flag present and true → available, flag present and false →
registered, flag absent and raw text non-empty → registered, otherwise
unknown. -/
def lookupWithWhois (whoisClient : WhoisProvider) (domain : String) : Option String :=
  let reply := whoisClient domain
  if reply.err then some StatusUnknown
  else
    match reply.result with
    | none => none
    | some whoisResult =>
      let status :=
        match whoisResult.IsAvailable with
        | some b => if b then StatusAvailable else StatusRegistered
        | none => if whoisResult.RawText ≠ "" then StatusRegistered else StatusUnknown
      some status

/-- The intermediate status computed by the RDAP phase of
`lookupDomain` in main.go (the local variable `status` just before the
fallback test): `StatusRegistered` exactly when the call returned a nil
error, a non-nil response, and an object that type-asserts to
`*rdap.Domain`; `StatusUnknown` otherwise. -/
def rdapStatus (reply : RDAPReply) : String :=
  if reply.err then StatusUnknown
  else
    match reply.resp with
    | some resp => if resp.objectIsDomain then StatusRegistered else StatusUnknown
    | none => StatusUnknown

/-- The function `lookupDomain` of main.go: compute the RDAP status; if
it is `StatusUnknown`, fall back to `lookupWithWhois`, otherwise return
it directly. -/
def lookupDomain (rdapClient : RDAPClient) (whoisClient : WhoisProvider) (domain : String) :
    Option String :=
  let status := rdapStatus (rdapClient domain)
  if status = StatusUnknown then lookupWithWhois whoisClient domain
  else some status

/-- Instrumented twin of `lookupDomain`: the same control flow,
additionally counting how many times the secondary (WHOIS) client is
invoked (the Go source calls `lookupWithWhois` exactly once in the
fallback branch and never otherwise). -/
def lookupDomainCalls (rdapClient : RDAPClient) (whoisClient : WhoisProvider) (domain : String) :
    Option String × Nat :=
  let status := rdapStatus (rdapClient domain)
  if status = StatusUnknown then (lookupWithWhois whoisClient domain, 1)
  else (some status, 0)

/-- Go map assignment `m[k] = v` on an association-list model of
`map[string]string`: replace the entry for `k` if present, otherwise
append a new entry. -/
def mapSet (m : List (String × String)) (k : String) (v : String) : List (String × String) :=
  match m with
  | [] => [(k, v)]
  | (k2, v2) :: rest => if k2 = k then (k, v) :: rest else (k2, v2) :: mapSet rest k v

/-- Go map read `m[k]` on the association-list model. -/
def mapGet (m : List (String × String)) (k : String) : Option String :=
  match m with
  | [] => none
  | (k2, v2) :: rest => if k2 = k then some v2 else mapGet rest k

/-- The key set of the association-list map model. -/
def mapKeys (m : List (String × String)) : List String := m.map Prod.fst

/-- Assembly of `finalResults` in `lookupDomainsMCP` of main.go: each
`(domain, status)` pair drained from the results channel is written into
the map in drain order. -/
def buildResults (pairs : List (String × String)) : List (String × String) :=
  pairs.foldl (fun m p => mapSet m p.1 p.2) []

/-- Model of `mcp.NewToolResponse(mcp.NewTextContent(text))`: the only
observable content is the text. -/
structure ToolResponse where
  text : String
  deriving DecidableEq, Repr

/-- Model of `json.Marshal` applied to the result map: an abstract
serializer that either fails or yields the JSON string. -/
def Marshal : Type := List (String × String) → Except Unit String

/-- The handler `lookupDomainMCP` of main.go.  It resolves the domain,
marshals the singleton result map, and on a marshalling error returns
the best-effort message `"Error formatting result for <domain>"`; every
return path pairs the response with a nil error (`none`).  A panic in
resolution propagates (`none` overall). -/
def lookupDomainMCP (marshal : Marshal) (rdapClient : RDAPClient) (whoisClient : WhoisProvider)
    (domain : String) : Option (ToolResponse × Option String) :=
  match lookupDomain rdapClient whoisClient domain with
  | none => none
  | some status =>
    let resultMap := [(domain, status)]
    match marshal resultMap with
    | Except.error _ => some ({ text := "Error formatting result for " ++ domain }, none)
    | Except.ok jsonString => some ({ text := jsonString }, none)

/-- The per-domain work of the worker pool in `lookupDomainsMCP`: every
queued domain is resolved by `lookupDomain` and emitted to the results
channel as a `(domain, status)` pair.  A panic in any worker crashes the
process (`none`).  The drain order of the channel is nondeterministic;
theorems about the result map therefore quantify over all permutations
of these pairs. -/
def resolveWorkers (rdapClient : RDAPClient) (whoisClient : WhoisProvider) :
    List String → Option (List (String × String))
  | [] => some []
  | domain :: rest =>
    match lookupDomain rdapClient whoisClient domain, resolveWorkers rdapClient whoisClient rest with
    | some status, some pairs => some ((domain, status) :: pairs)
    | _, _ => none

/-- The constant `numWorkers = 10` of `lookupDomainsMCP` in main.go. -/
def numWorkers : Nat := 10

/-- The function `minWorkers` of main.go. -/
def minWorkers (a b : Nat) : Nat := if a < b then a else b

/-- Number of worker goroutines started by `lookupDomainsMCP`: zero on
the empty-input early return, `minWorkers numWorkers numDomains`
otherwise (the bound of the worker-spawning loop). -/
def workersStarted (domains : List String) : Nat :=
  if domains.length = 0 then 0 else minWorkers numWorkers domains.length

/-- The handler `lookupDomainsMCP` of main.go.  Empty input returns the
literal text `"{}"` (written `"\x7b\x7d"`) before any worker is started.
Otherwise all domains are resolved by the worker pool, the drained pairs
are folded into `finalResults`, and the map is marshalled; a
marshalling error yields the best-effort message.  Every return path
pairs the response with a nil error (`none`). -/
def lookupDomainsMCP (marshal : Marshal) (rdapClient : RDAPClient) (whoisClient : WhoisProvider)
    (domains : List String) : Option (ToolResponse × Option String) :=
  if domains.length = 0 then some ({ text := "\x7b\x7d" }, none)
  else
    match resolveWorkers rdapClient whoisClient domains with
    | none => none
    | some pairs =>
      let finalResults := buildResults pairs
      match marshal finalResults with
      | Except.error _ => some ({ text := "Error formatting results for multiple domains" }, none)
      | Except.ok jsonString => some ({ text := jsonString }, none)

/-- An RDAP client whose call always fails with a non-nil error. -/
def rdapAlwaysFails : RDAPClient := fun _ => { resp := none, err := true }

/-- A WHOIS provider whose query always fails with a non-nil error. -/
def whoisAlwaysFails : WhoisProvider := fun _ => { result := none, err := true }

/-- A WHOIS provider returning a nil result together with a nil error —
a reply the `WhoisProvider` interface permits, and one the repository's
own mock (`MockWhoisProvider` with `SetResponse(d, nil, nil)`) produces. -/
def whoisNilResultNilError : WhoisProvider := fun _ => { result := none, err := false }

/-! Shared helper lemmas. -/

theorem statusRegistered_ne_unknown : StatusRegistered ≠ StatusUnknown := by decide

theorem lookupDomainCalls_fst (rdapClient : RDAPClient) (whoisClient : WhoisProvider)
    (domain : String) :
    (lookupDomainCalls rdapClient whoisClient domain).1 =
      lookupDomain rdapClient whoisClient domain := by
  unfold lookupDomainCalls lookupDomain
  by_cases h : rdapStatus (rdapClient domain) = StatusUnknown <;> simp [h]

/-! C1: primary success short-circuits. -/

/-- C1: for every domain, if the primary (RDAP) call succeeds (nil
error, non-nil response) and the response object is recognizable as a
domain-registration record, `lookupDomain` returns `"registered"` and
the secondary (WHOIS) client is invoked zero times. -/
theorem C1_primary_success_short_circuits
    (rdapClient : RDAPClient) (whoisClient : WhoisProvider) (domain : String)
    (resp : RDAPResponse)
    (hreply : rdapClient domain = { resp := some resp, err := false })
    (hdom : resp.objectIsDomain = true) :
    lookupDomain rdapClient whoisClient domain = some StatusRegistered ∧
      lookupDomainCalls rdapClient whoisClient domain = (some StatusRegistered, 0) := by
  have hs : rdapStatus (rdapClient domain) = StatusRegistered := by
    rw [hreply]; simp [rdapStatus, hdom]
  constructor
  · unfold lookupDomain
    rw [hs]
    simp [statusRegistered_ne_unknown]
  · unfold lookupDomainCalls
    rw [hs]
    simp [statusRegistered_ne_unknown]

/-- Witness for C1 at a concrete input: the RDAP client answers with a
domain object, the WHOIS provider is the nil-result mock. -/
theorem C1_witness :
    lookupDomain (fun _ => { resp := some { objectIsDomain := true }, err := false })
        whoisNilResultNilError "example.com" = some StatusRegistered ∧
      lookupDomainCalls (fun _ => { resp := some { objectIsDomain := true }, err := false })
        whoisNilResultNilError "example.com" = (some StatusRegistered, 0) :=
  C1_primary_success_short_circuits _ whoisNilResultNilError "example.com"
    { objectIsDomain := true } rfl rfl

/-! C2: the four secondary-success cases. -/

/-- C2: for every domain for which the secondary (WHOIS) query succeeds
(nil error, non-nil result), `lookupWithWhois` returns `"available"`
when the availability flag is present and true; `"registered"` when the
flag is present and false; `"registered"` when the flag is absent and
the raw text is non-empty; `"unknown"` when the flag is absent and the
raw text is empty. -/
theorem C2_whois_success_cases
    (whoisClient : WhoisProvider) (domain : String) (whoisResult : WhoisResult)
    (hreply : whoisClient domain = { result := some whoisResult, err := false }) :
    (whoisResult.IsAvailable = some true →
        lookupWithWhois whoisClient domain = some StatusAvailable) ∧
      (whoisResult.IsAvailable = some false →
        lookupWithWhois whoisClient domain = some StatusRegistered) ∧
      (whoisResult.IsAvailable = none → whoisResult.RawText ≠ "" →
        lookupWithWhois whoisClient domain = some StatusRegistered) ∧
      (whoisResult.IsAvailable = none → whoisResult.RawText = "" →
        lookupWithWhois whoisClient domain = some StatusUnknown) := by
  refine ⟨fun h1 => ?_, fun h2 => ?_, fun h3 h4 => ?_, fun h5 h6 => ?_⟩ <;>
    · unfold lookupWithWhois
      rw [hreply]
      simp_all

/-- Witness for C2: a concrete provider replying with flag `true`. -/
theorem C2_witness :
    ((⟨some true, ""⟩ : WhoisResult).IsAvailable = some true →
        lookupWithWhois (fun _ => { result := some ⟨some true, ""⟩, err := false }) "foo.test" =
          some StatusAvailable) ∧
      ((⟨some true, ""⟩ : WhoisResult).IsAvailable = some false →
        lookupWithWhois (fun _ => { result := some ⟨some true, ""⟩, err := false }) "foo.test" =
          some StatusRegistered) ∧
      ((⟨some true, ""⟩ : WhoisResult).IsAvailable = none →
        (⟨some true, ""⟩ : WhoisResult).RawText ≠ "" →
        lookupWithWhois (fun _ => { result := some ⟨some true, ""⟩, err := false }) "foo.test" =
          some StatusRegistered) ∧
      ((⟨some true, ""⟩ : WhoisResult).IsAvailable = none →
        (⟨some true, ""⟩ : WhoisResult).RawText = "" →
        lookupWithWhois (fun _ => { result := some ⟨some true, ""⟩, err := false }) "foo.test" =
          some StatusUnknown) :=
  C2_whois_success_cases _ "foo.test" ⟨some true, ""⟩ rfl

/-! C4: double failure resolves to unknown, not an error. -/

/-- C4: for every domain where the RDAP phase is inconclusive (its
intermediate status is `"unknown"`) and the secondary (WHOIS) query
fails with a non-nil error, `lookupDomain` returns the status
`"unknown"` — a normal string return, not an error and not a panic. -/
theorem C4_double_failure_unknown
    (rdapClient : RDAPClient) (whoisClient : WhoisProvider) (domain : String)
    (hp : rdapStatus (rdapClient domain) = StatusUnknown)
    (hw : (whoisClient domain).err = true) :
    lookupDomain rdapClient whoisClient domain = some StatusUnknown := by
  unfold lookupDomain
  rw [hp]
  simp [lookupWithWhois, hw]

/-- Witness for C4: both concrete clients fail. -/
theorem C4_witness :
    lookupDomain rdapAlwaysFails whoisAlwaysFails "bar.test" = some StatusUnknown :=
  C4_double_failure_unknown rdapAlwaysFails whoisAlwaysFails "bar.test" rfl rfl

/-! C5: unrecognizable primary response behaves like primary failure. -/

/-- C5: for every domain and every fixed secondary client, a primary
call that succeeds but whose response object is not recognizable as a
domain-registration record yields the same final status as a primary
call that fails with an error: both fall through to the same secondary
lookup. -/
theorem C5_unrecognizable_equals_failure
    (rdapOk rdapErr : RDAPClient) (whoisClient : WhoisProvider) (domain : String)
    (resp : RDAPResponse)
    (h1 : rdapOk domain = { resp := some resp, err := false })
    (h2 : resp.objectIsDomain = false)
    (h3 : (rdapErr domain).err = true) :
    lookupDomain rdapOk whoisClient domain = lookupWithWhois whoisClient domain ∧
      lookupDomain rdapErr whoisClient domain = lookupWithWhois whoisClient domain ∧
      lookupDomain rdapOk whoisClient domain = lookupDomain rdapErr whoisClient domain := by
  have hOk : rdapStatus (rdapOk domain) = StatusUnknown := by
    rw [h1]; simp [rdapStatus, h2]
  have hErr : rdapStatus (rdapErr domain) = StatusUnknown := by
    unfold rdapStatus
    rw [h3]
    simp
  refine ⟨?_, ?_, ?_⟩ <;> simp [lookupDomain, hOk, hErr]

/-- Witness for C5: a wrong-shape success versus an error reply, with a
failing secondary client on both sides. -/
theorem C5_witness :
    lookupDomain (fun _ => { resp := some { objectIsDomain := false }, err := false })
        whoisAlwaysFails "foo.test" = lookupWithWhois whoisAlwaysFails "foo.test" ∧
      lookupDomain rdapAlwaysFails whoisAlwaysFails "foo.test" =
        lookupWithWhois whoisAlwaysFails "foo.test" ∧
      lookupDomain (fun _ => { resp := some { objectIsDomain := false }, err := false })
          whoisAlwaysFails "foo.test" =
        lookupDomain rdapAlwaysFails whoisAlwaysFails "foo.test" :=
  C5_unrecognizable_equals_failure _ rdapAlwaysFails whoisAlwaysFails "foo.test"
    { objectIsDomain := false } rfl rfl rfl

/-! Association-list map lemmas for the batch dispatcher. -/

theorem mem_mapKeys_mapSet (m : List (String × String)) (k v x : String) :
    x ∈ mapKeys (mapSet m k v) ↔ x ∈ mapKeys m ∨ x = k := by
  induction m with
  | nil => simp [mapSet, mapKeys]
  | cons p rest ih =>
    obtain ⟨k2, v2⟩ := p
    by_cases h : k2 = k
    · subst h
      simp [mapSet, mapKeys]
      tauto
    · simp only [mapSet, if_neg h, mapKeys, List.map_cons, List.mem_cons] at *
      tauto

theorem mapKeys_mapSet_nodup (m : List (String × String)) (k v : String)
    (h : (mapKeys m).Nodup) : (mapKeys (mapSet m k v)).Nodup := by
  induction m with
  | nil => simp [mapSet, mapKeys]
  | cons p rest ih =>
    obtain ⟨k2, v2⟩ := p
    simp only [mapKeys, List.map_cons, List.nodup_cons] at h
    by_cases hk : k2 = k
    · subst hk
      simpa [mapSet, mapKeys] using h
    · have hrest := ih h.2
      simp only [mapSet, if_neg hk, mapKeys, List.map_cons, List.nodup_cons]
      refine ⟨?_, hrest⟩
      rw [show (mapSet rest k v).map Prod.fst = mapKeys (mapSet rest k v) from rfl,
        mem_mapKeys_mapSet]
      push_neg
      exact ⟨h.1, hk⟩

theorem mapGet_mapSet_self (m : List (String × String)) (k v : String) :
    mapGet (mapSet m k v) k = some v := by
  induction m with
  | nil => simp [mapSet, mapGet]
  | cons p rest ih =>
    obtain ⟨k2, v2⟩ := p
    by_cases h : k2 = k
    · subst h; simp [mapSet, mapGet]
    · simp [mapSet, h, mapGet, ih]

theorem mapGet_mapSet_ne (m : List (String × String)) (k v x : String) (h : x ≠ k) :
    mapGet (mapSet m k v) x = mapGet m x := by
  have hk : k ≠ x := fun hh => h hh.symm
  induction m with
  | nil => simp [mapSet, mapGet, hk]
  | cons p rest ih =>
    obtain ⟨k2, v2⟩ := p
    by_cases h2 : k2 = k
    · subst h2
      simp [mapSet, mapGet, hk]
    · simp only [mapSet, if_neg h2, mapGet]
      by_cases h3 : k2 = x <;> simp [h3, ih]

theorem mem_mapKeys_foldl (pairs : List (String × String)) :
    ∀ (m : List (String × String)) (x : String),
      x ∈ mapKeys (pairs.foldl (fun m p => mapSet m p.1 p.2) m) ↔
        x ∈ mapKeys m ∨ x ∈ pairs.map Prod.fst := by
  induction pairs with
  | nil => simp
  | cons p rest ih =>
    intro m x
    simp only [List.foldl_cons, List.map_cons, List.mem_cons]
    rw [ih, mem_mapKeys_mapSet]
    tauto

theorem mapKeys_foldl_nodup (pairs : List (String × String)) :
    ∀ m : List (String × String), (mapKeys m).Nodup →
      (mapKeys (pairs.foldl (fun m p => mapSet m p.1 p.2) m)).Nodup := by
  induction pairs with
  | nil => intro m h; simpa using h
  | cons p rest ih =>
    intro m h
    simpa using ih (mapSet m p.1 p.2) (mapKeys_mapSet_nodup m p.1 p.2 h)

theorem mapGet_foldl (statusOf : String → String) (pairs : List (String × String))
    (hval : ∀ p ∈ pairs, p.2 = statusOf p.1) :
    ∀ (m : List (String × String)) (k : String),
      mapGet (pairs.foldl (fun m p => mapSet m p.1 p.2) m) k =
        if k ∈ pairs.map Prod.fst then some (statusOf k) else mapGet m k := by
  induction pairs with
  | nil => simp
  | cons p rest ih =>
    intro m k
    obtain ⟨a, b⟩ := p
    have hb : b = statusOf a := hval (a, b) (List.mem_cons_self _ _)
    have hrest : ∀ q ∈ rest, q.2 = statusOf q.1 := fun q hq => hval q (List.mem_cons_of_mem _ hq)
    simp only [List.foldl_cons, List.map_cons, List.mem_cons]
    rw [ih hrest]
    by_cases h1 : k ∈ rest.map Prod.fst
    · simp [h1]
    · by_cases h2 : k = a
      · subst h2
        simp [h1, mapGet_mapSet_self, hb]
      · simp [h1, h2, mapGet_mapSet_ne m a b k h2]

/-! C3: the batch result map agrees with single-domain resolution. -/

/-- C3: for every non-empty list of requested domains and every drain
order of the worker results (any permutation of the per-domain
`(domain, status)` pairs), the assembled result map has no duplicate
keys, its keys are exactly the unique requested domains, and every
requested domain is mapped to the status its single-domain resolution
with the same clients produces. -/
theorem C3_batch_matches_single
    (rdapClient : RDAPClient) (whoisClient : WhoisProvider)
    (domains : List String) (statusOf : String → String)
    (drained : List (String × String))
    (_hne : domains ≠ [])
    (hstatus : ∀ d, lookupDomain rdapClient whoisClient d = some (statusOf d))
    (hperm : drained.Perm (domains.map (fun d => (d, statusOf d)))) :
    (mapKeys (buildResults drained)).Nodup ∧
      (∀ k, k ∈ mapKeys (buildResults drained) ↔ k ∈ domains) ∧
      (∀ k ∈ domains,
        mapGet (buildResults drained) k = lookupDomain rdapClient whoisClient k) := by
  have hval : ∀ p ∈ drained, p.2 = statusOf p.1 := by
    intro p hp
    obtain ⟨d, _, rfl⟩ := List.mem_map.mp (hperm.mem_iff.mp hp)
    rfl
  have hkeys : (drained.map Prod.fst).Perm domains := by
    have h1 := hperm.map Prod.fst
    have h2 : ∀ l : List String, (l.map (fun d => (d, statusOf d))).map Prod.fst = l := by
      intro l
      induction l with
      | nil => rfl
      | cons a t ih => simp [ih]
    rwa [h2 domains] at h1
  refine ⟨mapKeys_foldl_nodup drained [] (by simp [mapKeys]), ?_, ?_⟩
  · intro k
    rw [show buildResults drained = drained.foldl (fun m p => mapSet m p.1 p.2) [] from rfl,
      mem_mapKeys_foldl]
    simp [mapKeys, hkeys.mem_iff]
  · intro k hk
    rw [show buildResults drained = drained.foldl (fun m p => mapSet m p.1 p.2) [] from rfl,
      mapGet_foldl statusOf drained hval]
    rw [if_pos (hkeys.mem_iff.mpr hk)]
    exact (hstatus k).symm

/-- An RDAP client that recognizes exactly `example.com` as registered
and fails for every other domain. -/
def rdapRegistersExample : RDAPClient :=
  fun d =>
    if d = "example.com" then { resp := some { objectIsDomain := true }, err := false }
    else { resp := none, err := true }

/-- A WHOIS provider that always reports the domain as available. -/
def whoisAlwaysAvailable : WhoisProvider :=
  fun _ => { result := some { IsAvailable := some true, RawText := "" }, err := false }

/-- The per-domain status of `rdapRegistersExample` with
`whoisAlwaysAvailable` as fallback. -/
def statusOfExample : String → String :=
  fun d => if d = "example.com" then StatusRegistered else StatusAvailable

theorem statusOfExample_correct (d : String) :
    lookupDomain rdapRegistersExample whoisAlwaysAvailable d = some (statusOfExample d) := by
  by_cases h : d = "example.com" <;>
    simp [lookupDomain, rdapStatus, rdapRegistersExample, whoisAlwaysAvailable, lookupWithWhois,
      statusOfExample, h, StatusRegistered, StatusUnknown, StatusAvailable]

/-- Witness for C3: a three-element batch with a duplicated domain,
drained in request order. -/
theorem C3_witness :
    (mapKeys (buildResults
        ((["example.com", "foo.test", "example.com"] : List String).map
          (fun d => (d, statusOfExample d))))).Nodup ∧
      (∀ k, k ∈ mapKeys (buildResults
          ((["example.com", "foo.test", "example.com"] : List String).map
            (fun d => (d, statusOfExample d)))) ↔
        k ∈ (["example.com", "foo.test", "example.com"] : List String)) ∧
      (∀ k ∈ (["example.com", "foo.test", "example.com"] : List String),
        mapGet (buildResults
          ((["example.com", "foo.test", "example.com"] : List String).map
            (fun d => (d, statusOfExample d)))) k =
          lookupDomain rdapRegistersExample whoisAlwaysAvailable k) :=
  C3_batch_matches_single rdapRegistersExample whoisAlwaysAvailable
    ["example.com", "foo.test", "example.com"] statusOfExample
    ((["example.com", "foo.test", "example.com"] : List String).map
      (fun d => (d, statusOfExample d)))
    (List.cons_ne_nil _ _) statusOfExample_correct (List.Perm.refl _)

/-! C6: the empty batch. -/

/-- C6: invoked with an empty list of domains, the batch handler
returns the literal text `"{}"` (written `"\x7b\x7d"`) paired with a
nil error — the empty branch returns before the worker-spawning loop,
so zero workers are started. -/
theorem C6_empty_batch (marshal : Marshal) (rdapClient : RDAPClient)
    (whoisClient : WhoisProvider) :
    lookupDomainsMCP marshal rdapClient whoisClient [] =
        some ({ text := "\x7b\x7d" }, none) ∧
      workersStarted [] = 0 :=
  ⟨rfl, rfl⟩

/-! C7: worker-pool sizing. -/

theorem minWorkers_eq_min (a b : Nat) : minWorkers a b = min a b := by
  unfold minWorkers
  split <;> omega

/-- C7: for every non-empty batch of `k` domains, the number of workers
started is `min numWorkers k` with `numWorkers = 10`: exactly `k`
workers when `k ≤ 10` and exactly `10` workers when `k > 10`. -/
theorem C7_worker_count (domains : List String) (hne : domains ≠ []) :
    workersStarted domains = min numWorkers domains.length ∧
      (domains.length ≤ numWorkers → workersStarted domains = domains.length) ∧
      (numWorkers < domains.length → workersStarted domains = numWorkers) := by
  have hlen : domains.length ≠ 0 := fun h => hne (List.length_eq_zero.mp h)
  have hw : workersStarted domains = min numWorkers domains.length := by
    unfold workersStarted
    rw [if_neg hlen, minWorkers_eq_min]
  refine ⟨hw, fun h => ?_, fun h => ?_⟩
  · rw [hw]; omega
  · rw [hw]; omega

/-- Witness for C7: a batch of 12 domains starts exactly 10 workers. -/
theorem C7_witness :
    workersStarted ["d01", "d02", "d03", "d04", "d05", "d06", "d07", "d08", "d09", "d10",
        "d11", "d12"] =
        min numWorkers (["d01", "d02", "d03", "d04", "d05", "d06", "d07", "d08", "d09", "d10",
          "d11", "d12"] : List String).length ∧
      ((["d01", "d02", "d03", "d04", "d05", "d06", "d07", "d08", "d09", "d10",
          "d11", "d12"] : List String).length ≤ numWorkers →
        workersStarted ["d01", "d02", "d03", "d04", "d05", "d06", "d07", "d08", "d09", "d10",
          "d11", "d12"] =
          (["d01", "d02", "d03", "d04", "d05", "d06", "d07", "d08", "d09", "d10",
            "d11", "d12"] : List String).length) ∧
      (numWorkers < (["d01", "d02", "d03", "d04", "d05", "d06", "d07", "d08", "d09", "d10",
          "d11", "d12"] : List String).length →
        workersStarted ["d01", "d02", "d03", "d04", "d05", "d06", "d07", "d08", "d09", "d10",
          "d11", "d12"] = numWorkers) :=
  C7_worker_count
    ["d01", "d02", "d03", "d04", "d05", "d06", "d07", "d08", "d09", "d10", "d11", "d12"]
    (List.cons_ne_nil _ _)

/-! C9: handlers always answer with text and a nil error. -/

theorem lookupWithWhois_wrapper_isSome (underlying : String → Except Unit GoWhoisRecord)
    (domain : String) :
    (lookupWithWhois (WhoisClientQuery underlying) domain).isSome := by
  unfold lookupWithWhois WhoisClientQuery
  cases h : underlying domain <;> simp [h]

theorem lookupDomain_wrapper_isSome (rdapClient : RDAPClient)
    (underlying : String → Except Unit GoWhoisRecord) (domain : String) :
    (lookupDomain rdapClient (WhoisClientQuery underlying) domain).isSome := by
  unfold lookupDomain
  by_cases h : rdapStatus (rdapClient domain) = StatusUnknown <;>
    simp [h, lookupWithWhois_wrapper_isSome]

theorem resolveWorkers_wrapper_isSome (rdapClient : RDAPClient)
    (underlying : String → Except Unit GoWhoisRecord) (domains : List String) :
    (resolveWorkers rdapClient (WhoisClientQuery underlying) domains).isSome := by
  induction domains with
  | nil => simp [resolveWorkers]
  | cons d rest ih =>
    unfold resolveWorkers
    have h1 := lookupDomain_wrapper_isSome rdapClient underlying d
    cases hh : lookupDomain rdapClient (WhoisClientQuery underlying) d with
    | none => rw [hh] at h1; simp at h1
    | some status =>
      cases hr : resolveWorkers rdapClient (WhoisClientQuery underlying) rest with
      | none => rw [hr] at ih; simp at ih
      | some pairs => simp

/-- C9: with the secondary client being the concrete `WhoisClient`
wrapper over any underlying library client (as instantiated in `main`),
both handlers always return a textual tool response paired with a nil
error, for every marshaller (including failing ones, whose failure is
converted to a best-effort text message) and every input. -/
theorem C9_handlers_text_and_nil_error
    (marshalSingle marshalBatch : Marshal) (rdapClient : RDAPClient)
    (underlying : String → Except Unit GoWhoisRecord)
    (domain : String) (domains : List String) :
    (∃ t, lookupDomainMCP marshalSingle rdapClient (WhoisClientQuery underlying) domain =
        some ({ text := t }, none)) ∧
      (∃ t, lookupDomainsMCP marshalBatch rdapClient (WhoisClientQuery underlying) domains =
        some ({ text := t }, none)) := by
  constructor
  · unfold lookupDomainMCP
    cases hs : lookupDomain rdapClient (WhoisClientQuery underlying) domain with
    | none =>
      have h1 := lookupDomain_wrapper_isSome rdapClient underlying domain
      rw [hs] at h1; simp at h1
    | some status =>
      cases hm : marshalSingle [(domain, status)] with
      | error e => exact ⟨"Error formatting result for " ++ domain, by simp [hm]⟩
      | ok s => exact ⟨s, by simp [hm]⟩
  · unfold lookupDomainsMCP
    by_cases hlen : domains.length = 0
    · exact ⟨"\x7b\x7d", by simp [hlen]⟩
    · cases hr : resolveWorkers rdapClient (WhoisClientQuery underlying) domains with
      | none =>
        have h1 := resolveWorkers_wrapper_isSome rdapClient underlying domains
        rw [hr] at h1; simp at h1
      | some pairs =>
        cases hm : marshalBatch (buildResults pairs) with
        | error e =>
          exact ⟨"Error formatting results for multiple domains", by simp [hlen, hr, hm]⟩
        | ok s => exact ⟨s, by simp [hlen, hr, hm]⟩

/-! C8 and C10: the nil-result, nil-error reply of the secondary
provider.  The `WhoisProvider` interface permits `(nil, nil)` and the
repository's own mock produces it, yet `lookupWithWhois` dereferences
the nil `*WhoisResult` and panics, so no status string is produced. -/

/-- C8: evaluation at the failing input.  With a failing primary client
and a secondary provider that replies with a nil result and a nil
error, `lookupDomain` does not produce any status string at all (the Go
code panics on a nil-pointer dereference), contradicting the claim that
the resolved status is always one of the three strings. -/
theorem C8_status_absent_on_nil_whois_reply :
    lookupDomain rdapAlwaysFails whoisNilResultNilError "example.com" = none ∧
      ∀ s : String, lookupDomain rdapAlwaysFails whoisNilResultNilError "example.com" ≠ some s := by
  refine ⟨by decide, ?_⟩
  intro s
  simp [lookupDomain, rdapStatus, rdapAlwaysFails, lookupWithWhois, whoisNilResultNilError,
    StatusUnknown]

/-- C10: evaluation at the failing input.  A nil-error reply carrying an
absent (nil) record — permitted by the `WhoisProvider` interface — makes
`lookupWithWhois` dereference the nil `*WhoisResult`: the Go code
panics instead of evaluating totally to a status. -/
theorem C10_whois_nil_record_nil_error_panics :
    lookupWithWhois whoisNilResultNilError "example.com" = none := by decide

end DomainLookup
